import Mathlib

/-!
A verification development for the inbound voice-agent platform.

The Python sources are shallowly embedded: each definition below mirrors one
function (or event handler) of the repository, with mutable per-call state made
explicit and external services passed in as oracle parameters.  Python strings
are modelled as `String` (lists of characters), Python floats as `ℚ` with the
exact arithmetic the formulas denote, and Python exceptions as `Except`.
-/

namespace VoiceAgent

/-! ## Python string primitives

Python's built-in string methods, re-implemented by structural recursion on the
character list so that every definition evaluates inside the kernel.  Only the
behaviour exercised by the repository is modelled (ASCII case folding, the
four common whitespace characters).
-/

/-- Python `str.lower` on one character (ASCII, as used by the sources). -/
def charLower (c : Char) : Char :=
  if 'A' ≤ c ∧ c ≤ 'Z' then Char.ofNat (c.toNat + 32) else c

/-- Python `str.upper` on one character (ASCII). -/
def charUpper (c : Char) : Char :=
  if 'a' ≤ c ∧ c ≤ 'z' then Char.ofNat (c.toNat - 32) else c

/-- Whitespace stripped by Python `str.strip()` (the characters occurring in
transcripts and e-mail strings). -/
def isSpaceChar (c : Char) : Bool :=
  c == ' ' || c == '\t' || c == '\n' || c == '\r'

/-- Python `s.lower()`. -/
def py_lower (s : String) : String := ⟨s.data.map charLower⟩

/-- Python `s.upper()`. -/
def py_upper (s : String) : String := ⟨s.data.map charUpper⟩

/-- Python `s.strip()`. -/
def py_strip (s : String) : String :=
  ⟨((s.data.dropWhile isSpaceChar).reverse.dropWhile isSpaceChar).reverse⟩

/-- Python `s.rstrip(".")`: remove every trailing period. -/
def py_rstrip_dots (s : String) : String :=
  ⟨(s.data.reverse.dropWhile (fun c => c == '.')).reverse⟩

/-- Python `len(s)` (a count of characters). -/
def py_len (s : String) : Nat := s.data.length

/-- Python `c in s` for a one-character needle. -/
def py_contains_char (s : String) (c : Char) : Bool := s.data.contains c

/-- Python `s.replace(old, new)` on character lists: scan left to right,
replacing each non-overlapping occurrence and continuing after the inserted
replacement.  The fuel argument is the length of the scanned list, which bounds
the recursion. -/
def replaceFuel (p r : List Char) : Nat → List Char → List Char
  | 0, s => s
  | _ + 1, [] => []
  | fuel + 1, c :: cs =>
    if p.isPrefixOf (c :: cs) then r ++ replaceFuel p r fuel ((c :: cs).drop p.length)
    else c :: replaceFuel p r fuel cs

/-- Python `s.replace(old, new)`. -/
def py_replace (s old new : String) : String :=
  ⟨replaceFuel old.data new.data s.data.length s.data⟩

/-- Python `s.split("@")[-1]`: the part of `s` after the last `@`, or all of
`s` when no `@` occurs. -/
def py_split_last_at (s : String) : String :=
  ⟨(s.data.reverse.takeWhile (fun c => c != '@')).reverse⟩

/-- Python `"\n".join(lines)`. -/
def py_join_newline : List String → String
  | [] => ""
  | [s] => s
  | s :: rest => s ++ "\n" ++ py_join_newline rest

/-! ## Transcript Gate

From `src/agents/base.py` (the `FILLER_WORDS` constant, lines 378–382) and the
`on_user_speech` handler of `src/agents/inbound.py` lines 232–247 (identical
logic in `src/agent.py` `on_user_speech_committed`, lines 596–611). -/

/-- The filler-word set of `src/agents/base.py` lines 378–382. -/
def FILLER_WORDS : List String :=
  ["okay.", "okay", "ok", "uh", "hmm", "hm", "yeah", "yes",
   "no", "um", "ah", "oh", "right", "sure", "fine", "good",
   "haan", "han", "theek", "theek hai", "accha", "ji", "ha"]

/-- The accept/reject decision of `on_user_speech` (`src/agents/inbound.py`
lines 232–247): compute `transcript = ev.user_transcript.strip()` and
`transcript_lower = transcript.lower().rstrip(".")`, then return early (reject)
on echo, on an empty or short transcript, and on a filler word; otherwise the
utterance is accepted. -/
def on_user_speech_accepts (agent_is_speaking : Bool) (user_transcript : String) : Bool :=
  let transcript := py_strip user_transcript
  let transcript_lower := py_rstrip_dots (py_lower transcript)
  if agent_is_speaking then false
  else if transcript == "" || py_len transcript < 3 then false
  else if FILLER_WORDS.contains transcript_lower then false
  else true

/-- The reference accept/reject definition of claim C3, written from the spec's
three prioritised rejection rules (spec §4.1): echo first, then trimmed length
below 3 characters, then exact membership of the trimmed, lower-cased,
trailing-period-stripped text in the filler-word set. -/
def gateReference (isAgentSpeaking : Bool) (text : String) : Bool :=
  if isAgentSpeaking then false
  else if py_len (py_strip text) < 3 then false
  else if FILLER_WORDS.contains (py_rstrip_dots (py_lower (py_strip text))) then false
  else true

example : on_user_speech_accepts false "okay" = false := by decide
example : on_user_speech_accepts false "Okay." = false := by decide
example : on_user_speech_accepts false "haan" = false := by decide
example : on_user_speech_accepts false "  ji  " = false := by decide
example : on_user_speech_accepts false "hello there" = true := by decide
example : on_user_speech_accepts true "hello there" = false := by decide

/-! ## Turn Counter and Session Limiter

From `src/agents/inbound.py` lines 212 and 232–264: `turn_count` starts at 0,
each accepted utterance increments it, and after the increment the handler
requests a scripted wrap-up reply whenever `turn_count >= max_turns`. -/

/-- One speech event as the gate sees it: the `_agent_is_speaking` flag at the
moment the event is evaluated, and the raw `ev.user_transcript`. -/
structure GateEvent where
  agent_is_speaking : Bool
  user_transcript : String

/-- One run of the `on_user_speech` handler on the turn counter: returns the
new `turn_count` and whether the wrap-up reply was requested
(`src/agents/inbound.py` lines 253–264). -/
def stepTurn (max_turns turn_count : Nat) (e : GateEvent) : Nat × Bool :=
  if on_user_speech_accepts e.agent_is_speaking e.user_transcript then
    (turn_count + 1, decide (max_turns ≤ turn_count + 1))
  else
    (turn_count, false)

/-- Process a list of events, returning the final `turn_count` and how many
times the wrap-up reply was requested. -/
def runTurns (max_turns turn_count : Nat) : List GateEvent → Nat × Nat
  | [] => (turn_count, 0)
  | e :: es =>
    let s := stepTurn max_turns turn_count e
    let rest := runTurns max_turns s.1 es
    (rest.1, (if s.2 then 1 else 0) + rest.2)

/-- Process a list of events, returning per event whether the wrap-up reply was
requested at that event. -/
def runTrace (max_turns turn_count : Nat) : List GateEvent → List Bool
  | [] => []
  | e :: es =>
    let s := stepTurn max_turns turn_count e
    s.2 :: runTrace max_turns s.1 es

/-- The number of events of the list that the Transcript Gate accepts. -/
def acceptedCount (es : List GateEvent) : Nat :=
  es.countP (fun e => on_user_speech_accepts e.agent_is_speaking e.user_transcript)

/-- Five consecutive accepted caller utterances (the agent silent, each text
neither short nor a filler word). -/
def fiveUtterances : List GateEvent :=
  [⟨false, "I want to book a demo"⟩,
   ⟨false, "tomorrow morning"⟩,
   ⟨false, "my name is Vishal"⟩,
   ⟨false, "vishal at gmail dot com"⟩,
   ⟨false, "see you then"⟩]

/-! ## Disconnect handlers and the shutdown guard

`src/agents/inbound.py` lines 266–296: `on_disconnect` schedules
`_do_shutdown`, which checks and sets the `_shutdown_done` flag before running
the finalize pipeline (`src/agents/outbound.py` lines 268–297 is identical).
`src/agent.py` lines 627–632 instead schedules `unified_shutdown_hook`
directly, and that closure (lines 638–787) contains no such guard.  The state
tracks the guard flag and how many times the pipeline body has run; the
handlers run on one cooperative event loop, so each invocation is atomic. -/

/-- `normalize_email` of `src/utils.py` lines 100–126: lower-case and strip,
rewrite the spoken forms of `@` and `.`, delete the remaining spaces, and patch
common domain misspellings, in exactly the source's `str.replace` order. -/
def normalize_email (raw_email : String) : String :=
  let email := py_strip (py_lower raw_email)
  let email := py_replace email "at the rate of" "@"
  let email := py_replace email "at the rate" "@"
  let email := py_replace email "at rate" "@"
  let email := py_replace email " at " "@"
  let email := py_replace email " eta " "@"
  let email := py_replace email " dot " "."
  let email := py_replace email " period " "."
  let email := py_replace email " " ""
  let email := py_replace email "gmial" "gmail"
  let email := py_replace email "gmal" "gmail"
  let email := py_replace email "gmai" "gmail"
  let email := py_replace email "yaho" "yahoo"
  let email := py_replace email "hotmal" "hotmail"
  let email := py_replace email ".con" ".com"
  let email := py_replace email ".coom" ".com"
  email

/-- The inline validity check of `save_booking_intent`
(`src/agents/tools.py` line 129): `"@" in email and "." in email.split("@")[-1]`
(the source rejects on the negation). -/
def emailValid (email : String) : Bool :=
  py_contains_char email '@' && py_contains_char (py_split_last_at email) '.'

/-- A saved booking intent (the dict built at `src/agents/tools.py`
lines 137–143). -/
structure BookingIntent where
  start_time : String
  caller_name : String
  caller_phone : String
  caller_email : String
  notes : String
deriving DecidableEq

/-- The call-scoped mutable fields of `AgentTools`
(`src/agents/tools.py` lines 34–38). -/
structure AgentToolsState where
  caller_phone : String
  caller_name : String
  booking_intent : Option BookingIntent
deriving DecidableEq

/-- `save_booking_intent` of `src/agents/tools.py` lines 113–151: normalise the
e-mail, reject with a re-spell request when `"@" not in email or "." not in
email.split("@")[-1]`, otherwise overwrite `booking_intent` (storing the
normalised e-mail) and `caller_name` and return the confirmation string. -/
def save_booking_intent (st : AgentToolsState)
    (start_time caller_name caller_phone caller_email notes : String) :
    AgentToolsState × String :=
  let email := normalize_email caller_email
  if !(py_contains_char email '@') || !(py_contains_char (py_split_last_at email) '.') then
    (st, "The email '" ++ email ++ "' doesn't look right. Please ask the caller to spell their email again, letter by letter.")
  else
    ({ st with
        caller_name := caller_name,
        booking_intent := some {
          start_time := start_time, caller_name := caller_name,
          caller_phone := caller_phone, caller_email := email, notes := notes } },
     "Booking intent saved for " ++ caller_name ++ " (" ++ email ++ ") at " ++ start_time ++ ". I'll confirm after the call.")

/-- Modelled from the spec: no session-level `cancel_appointment` tool exists
under `src/` — `src/agents/tools.py` exposes no cancel tool, and the
`cancel_appointment` of `src/services/booking_functions.py` lines 54–76 is an
external HTTP wrapper over an event id that never touches the session's
booking intent.  Spec §4.4: `cancel_appointment(reason?)` returns a
confirmation, or "nothing to cancel" when `bookingIntent` is null, and clears
`session.bookingIntent` to null. -/
def cancel_appointment (st : AgentToolsState) (_reason : String) :
    AgentToolsState × String :=
  match st.booking_intent with
  | none => (st, "Nothing to cancel.")
  | some _ => ({ st with booking_intent := none }, "Your appointment has been cancelled.")

/-! ## Rate limiting

`src/utils.py` lines 72–93.  `time.time()` values are modelled as rationals and
the wall clock is passed explicitly; `_call_timestamps` (a `defaultdict(list)`)
is a total map from phone to timestamp list. -/

def RATE_LIMIT_CALLS : Nat := 5

def RATE_LIMIT_WINDOW : ℚ := 3600

/-- The module-level `_call_timestamps` mapping of `src/utils.py` line 72. -/
structure RateState where
  call_timestamps : String → List ℚ

/-- `is_rate_limited` of `src/utils.py` lines 77–93: `"unknown"` and `"demo"`
are never limited; otherwise prune the phone's timestamps to the sliding
window, report limited when `RATE_LIMIT_CALLS` remain, and otherwise record
`now` and report not limited. -/
def is_rate_limited (st : RateState) (phone : String) (now : ℚ) : Bool × RateState :=
  if phone == "unknown" || phone == "demo" then
    (false, st)
  else
    let pruned := (st.call_timestamps phone).filter (fun t => now - t < RATE_LIMIT_WINDOW)
    if RATE_LIMIT_CALLS ≤ pruned.length then
      (true, ⟨fun p => if p == phone then pruned else st.call_timestamps p⟩)
    else
      (false, ⟨fun p => if p == phone then pruned ++ [now] else st.call_timestamps p⟩)

/-- A sequence of session-start checks for one phone, threading the
`_call_timestamps` state: one Boolean per check. -/
def runChecks (st : RateState) (phone : String) : List ℚ → List Bool
  | [] => []
  | now :: laters =>
    let r := is_rate_limited st phone now
    r.1 :: runChecks r.2 phone laters

/-- The rate-limit gate of `inbound_entrypoint` (`src/agents/inbound.py` lines
121–123): when `is_rate_limited` reports limited the entrypoint returns before
any session setup, otherwise setup proceeds. -/
def inbound_entrypoint_proceeds (limited : Bool) : Bool := !limited

/-- The `_call_timestamps` state of a freshly started worker: no phone has
recorded calls. -/
def freshRateState : RateState := ⟨fun _ => []⟩

/-! ## Cost estimation

`_estimate_cost` of `src/agents/base.py` lines 500–507 (the same closure is
`estimate_cost` in `src/agent.py` lines 711–718), over exact rational
arithmetic.  Python's `round(x, 5)` rounds half to even. -/

/-- Round a rational to the nearest integer, ties to the even integer
(the rounding of Python's built-in `round`). -/
def rne (q : ℚ) : ℤ :=
  let n := ⌊q⌋
  if q - n < 1/2 then n
  else if 1/2 < q - n then n + 1
  else if Even n then n else n + 1

/-- Python `round(x, 5)`. -/
def py_round5 (q : ℚ) : ℚ := (rne (q * 100000) : ℚ) / 100000

/-- `_estimate_cost(dur, chars)` of `src/agents/base.py` lines 500–507:
`round((dur/60)*0.002 + (dur/60)*0.006 + (chars/1000)*0.003 +
(chars/4000)*0.0001, 5)`. -/
def _estimate_cost (dur chars : Nat) : ℚ :=
  py_round5 ((dur / 60) * 0.002 + (dur / 60) * 0.006
    + (chars / 1000) * 0.003 + (chars / 4000) * 0.0001)

/-! ## The unified shutdown pipeline

`unified_shutdown_hook` of `src/agents/base.py` lines 399–572.  The external
collaborators are oracle parameters: `create_booking` models
`async_create_booking` (which catches its own errors and returns a result
dict), while reading the chat history, the sentiment call and
`save_call_log` may raise, which the source wraps in `try`/`except` blocks.
Steps whose only effect is logging or notification delivery (themselves
`try`/`except`-wrapped fire-and-forget calls) are not tracked.  The model
returns `Except` so that an unhandled exception, were one possible, would be
an `.error` result; the saved-records list observes the persistence step. -/

/-- The result dict of `async_create_booking`
(`src/calendar_tools.py` lines 139–156). -/
structure BookingResult where
  success : Bool
  booking_id : String
  message : String

/-- The row passed to `save_call_log` (`src/agents/base.py` lines 555–569),
without the timestamp columns derived from the wall clock. -/
structure CallLogRecord where
  phone : String
  duration : Nat
  transcript : String
  summary : String
  recording_url : String
  caller_name : String
  sentiment : String
  estimated_cost_usd : ℚ
  was_booked : Bool
  interrupt_count : Nat

/-- The external collaborators the shutdown pipeline calls. -/
structure ShutdownEnv where
  create_booking : BookingIntent → BookingResult
  chat_history : Except Unit (List (String × String))
  classify_sentiment : String → Except Unit String
  stop_recording_url : String → String
  save_call_log : CallLogRecord → Except Unit Unit

/-- Step 2 of the pipeline (`src/agents/base.py` lines 459–475): rebuild the
transcript from the chat history, `"unavailable"` when reading it raises. -/
def transcriptOf (env : ShutdownEnv) : String :=
  match env.chat_history with
  | .ok msgs =>
    py_join_newline ((msgs.filter (fun m => m.1 == "user" || m.1 == "assistant")).map
      (fun m => "[" ++ py_upper m.1 ++ "] " ++ m.2))
  | .error _ => "unavailable"

/-- `unified_shutdown_hook` of `src/agents/base.py` lines 399–572: booking and
notification dispatch, transcript rebuild, best-effort sentiment
classification defaulting to `"unknown"`, cost estimation, recording stop, and
the guarded `save_call_log`.  Returns the booking status message, the
sentiment, and the list of rows passed to `save_call_log`. -/
def unified_shutdown_hook (env : ShutdownEnv)
    (booking_intent : Option BookingIntent) (duration interrupt_count : Nat)
    (caller_phone tools_caller_name : String) (egress_id : Option String) :
    Except Unit (String × String × List CallLogRecord) :=
  let booking_status_msg :=
    match booking_intent with
    | some intent =>
      let result := env.create_booking intent
      if result.success then "Booking Confirmed: " ++ result.booking_id
      else "Booking Failed: " ++ result.message
    | none => "No booking"
  let transcript_text := transcriptOf env
  let sentiment :=
    if transcript_text != "" && transcript_text != "unavailable" then
      match env.classify_sentiment transcript_text with
      | .ok resp => py_lower (py_strip resp)
      | .error _ => "unknown"
    else "unknown"
  let estimated_cost := _estimate_cost duration (py_len transcript_text)
  let recording_url :=
    match egress_id with
    | some eid => env.stop_recording_url eid
    | none => ""
  let record : CallLogRecord := {
    phone := caller_phone, duration := duration, transcript := transcript_text,
    summary := booking_status_msg, recording_url := recording_url,
    caller_name := tools_caller_name, sentiment := sentiment,
    estimated_cost_usd := estimated_cost,
    was_booked := booking_intent.isSome, interrupt_count := interrupt_count }
  let saved :=
    match env.save_call_log record with
    | .ok _ => [record]
    | .error _ => [record]
  Except.ok (booking_status_msg, sentiment, saved)

/-- A concrete environment whose sentiment classifier always raises and whose
other collaborators behave normally. -/
def sentimentDownEnv : ShutdownEnv where
  create_booking := fun _ => ⟨true, "bk-1", ""⟩
  chat_history := .ok [("user", "hello"), ("assistant", "hi")]
  classify_sentiment := fun _ => .error ()
  stop_recording_url := fun _ => "https://example.org/rec.ogg"
  save_call_log := fun _ => .ok ()

/-! ## Theorems -/

/-- The emptiness test of `if not transcript or len(transcript) < 3` is
subsumed by the length test. -/
theorem short_check_eq (s : String) :
    (s == "" || decide (py_len s < 3)) = decide (py_len s < 3) := by
  cases h : s == "" with
  | false => simp
  | true =>
    have hs : s = "" := eq_of_beq h
    subst hs
    decide

/-- C3: for every transcript event, the accept/reject decision of
`on_user_speech` equals the spec's reference gate: reject echo while the agent
speaks, then reject trimmed text shorter than 3 characters, then reject exact
filler-word matches, and otherwise accept. -/
theorem transcript_gate_matches_reference (speaking : Bool) (text : String) :
    on_user_speech_accepts speaking text = gateReference speaking text := by
  cases speaking with
  | true => rfl
  | false =>
    simp only [on_user_speech_accepts, gateReference]
    rw [short_check_eq]
    simp only [decide_eq_true_eq]

/-- The final turn count of a run is the starting count plus the number of
accepted utterances. -/
theorem runTurns_fst (m tc : Nat) (es : List GateEvent) :
    (runTurns m tc es).1 = tc + acceptedCount es := by
  induction es generalizing tc with
  | nil => simp [runTurns, acceptedCount]
  | cons e es ih =>
    unfold runTurns stepTurn
    by_cases h : on_user_speech_accepts e.agent_is_speaking e.user_transcript
    · simp [h, ih, acceptedCount, List.countP_cons]
      omega
    · simp [h, ih, acceptedCount, List.countP_cons]

/-- C4: `turn_count` after processing a list of events equals the number of
accepted utterances — each accepted utterance increments it by exactly one and
each rejected utterance (echo, too short, or filler) leaves it unchanged. -/
theorem turn_count_equals_accepted (m tc : Nat) (es : List GateEvent) :
    (runTurns m tc es).1 = tc + acceptedCount es ∧
      ∀ e : GateEvent, (stepTurn m tc e).1 =
        if on_user_speech_accepts e.agent_is_speaking e.user_transcript
        then tc + 1 else tc := by
  refine ⟨runTurns_fst m tc es, fun e => ?_⟩
  unfold stepTurn
  by_cases h : on_user_speech_accepts e.agent_is_speaking e.user_transcript <;> simp [h]

/-- C1 counterexample: with `max_turns = 3` and five accepted utterances, the
handler requests the scripted wrap-up reply at the 3rd, 4th and 5th
acceptances — three times, not exactly once — because the
`turn_count >= max_turns` test of `src/agents/inbound.py` line 255 has no
fired-once guard. -/
theorem wrapup_refires_counterexample :
    acceptedCount fiveUtterances = 5 ∧
      runTrace 3 0 fiveUtterances = [false, false, true, true, true] := by
  decide

/-- C1 (amended): starting from turn count `tc`, a run with `A` accepted
utterances requests the wrap-up reply `(tc + A + 1) - max m (tc + 1)` times
(truncated subtraction): it first fires at the acceptance that reaches
`max_turns` and re-fires at every later accepted turn.  With `m = 3`, `tc = 0`
and `A = 5` this is 3 firings. -/
theorem wrapup_signal_count (m tc : Nat) (es : List GateEvent) :
    (runTurns m tc es).2 = (tc + acceptedCount es + 1) - max m (tc + 1) := by
  induction es generalizing tc with
  | nil =>
    simp only [runTurns, acceptedCount, List.countP_nil]
    omega
  | cons e es ih =>
    unfold runTurns stepTurn
    by_cases h : on_user_speech_accepts e.agent_is_speaking e.user_transcript
    · by_cases hm : m ≤ tc + 1 <;>
        · simp [h, hm, ih, acceptedCount, List.countP_cons]
          omega
    · simp [h, ih, acceptedCount, List.countP_cons]

/-- `save_booking_intent` as one case split on the validity of the normalised
e-mail. -/
theorem save_booking_intent_eq (st : AgentToolsState) (s n p e no : String) :
    save_booking_intent st s n p e no =
      if emailValid (normalize_email e) then
        ({ caller_phone := st.caller_phone, caller_name := n,
           booking_intent := some ⟨s, n, p, normalize_email e, no⟩ },
         "Booking intent saved for " ++ n ++ " (" ++ normalize_email e ++ ") at "
           ++ s ++ ". I'll confirm after the call.")
      else
        (st, "The email '" ++ normalize_email e
          ++ "' doesn't look right. Please ask the caller to spell their email again, letter by letter.") := by
  unfold save_booking_intent emailValid
  cases ha : py_contains_char (normalize_email e) '@' <;>
    cases hb : py_contains_char (py_split_last_at (normalize_email e)) '.' <;>
      simp [ha, hb]

/-- C5: `save_booking_intent` with an e-mail whose normalised form lacks `@`
or lacks a dot in the domain portion returns the re-spell request and leaves
the tool state (in particular `booking_intent`) unchanged; with a valid
e-mail it returns the confirmation string and stores the supplied values. -/
theorem save_booking_intent_email_validation
    (st : AgentToolsState) (s n p e no : String) :
    (emailValid (normalize_email e) = false →
      save_booking_intent st s n p e no =
        (st, "The email '" ++ normalize_email e
          ++ "' doesn't look right. Please ask the caller to spell their email again, letter by letter.")) ∧
    (emailValid (normalize_email e) = true →
      save_booking_intent st s n p e no =
        ({ caller_phone := st.caller_phone, caller_name := n,
           booking_intent := some ⟨s, n, p, normalize_email e, no⟩ },
         "Booking intent saved for " ++ n ++ " (" ++ normalize_email e ++ ") at "
           ++ s ++ ". I'll confirm after the call.")) := by
  rw [save_booking_intent_eq]
  constructor <;> intro h <;> simp [h]

/-- C5 witness: `"not-an-email"` is rejected without touching the state, and
`"a@b.com"` is accepted and stored. -/
theorem save_booking_intent_email_validation_witness :
    save_booking_intent ⟨"+911234500000", "", none⟩
        "2026-03-01T10:00:00+05:30" "Asha" "+911234500000" "not-an-email" "" =
      (⟨"+911234500000", "", none⟩,
       "The email 'not-an-email' doesn't look right. Please ask the caller to spell their email again, letter by letter.") ∧
    save_booking_intent ⟨"+911234500000", "", none⟩
        "2026-03-01T10:00:00+05:30" "Asha" "+911234500000" "a@b.com" "" =
      (⟨"+911234500000", "Asha",
        some ⟨"2026-03-01T10:00:00+05:30", "Asha", "+911234500000", "a@b.com", ""⟩⟩,
       "Booking intent saved for Asha (a@b.com) at 2026-03-01T10:00:00+05:30. I'll confirm after the call.") := by
  constructor
  · exact ((save_booking_intent_email_validation ⟨"+911234500000", "", none⟩
      "2026-03-01T10:00:00+05:30" "Asha" "+911234500000" "not-an-email" "").1
      (by decide)).trans (by decide)
  · exact ((save_booking_intent_email_validation ⟨"+911234500000", "", none⟩
      "2026-03-01T10:00:00+05:30" "Asha" "+911234500000" "a@b.com" "").2
      (by decide)).trans (by decide)

/-- C6: within one session, a second `save_booking_intent` with a different
start time overwrites the first (last-write-wins); `cancel_appointment`
afterwards clears the intent to null; and `cancel_appointment` with no saved
intent returns the "nothing to cancel" result without error. -/
theorem booking_overwrite_cancel_law
    (st : AgentToolsState) (s1 n1 p1 e1 no1 s2 n2 p2 e2 no2 r r' : String)
    (h1 : emailValid (normalize_email e1) = true)
    (h2 : emailValid (normalize_email e2) = true)
    (_hne : s1 ≠ s2) :
    ((save_booking_intent (save_booking_intent st s1 n1 p1 e1 no1).1
        s2 n2 p2 e2 no2).1.booking_intent = some ⟨s2, n2, p2, normalize_email e2, no2⟩) ∧
    ((cancel_appointment (save_booking_intent (save_booking_intent st s1 n1 p1 e1 no1).1
        s2 n2 p2 e2 no2).1 r).1.booking_intent = none) ∧
    (∀ st' : AgentToolsState, st'.booking_intent = none →
      cancel_appointment st' r' = (st', "Nothing to cancel.")) := by
  rw [save_booking_intent_eq, save_booking_intent_eq, h1, h2]
  refine ⟨rfl, rfl, fun st' hst' => ?_⟩
  unfold cancel_appointment
  rw [hst']

/-- C6 witness: two concrete saves with different start times, then the two
cancel behaviours. -/
theorem booking_overwrite_cancel_law_witness :
    ((save_booking_intent (save_booking_intent ⟨"+911234500000", "", none⟩
        "2026-03-01T10:00:00+05:30" "Asha" "+911234500000" "a@b.com" "").1
        "2026-03-02T15:00:00+05:30" "Asha" "+911234500000" "c@d.org" "").1.booking_intent
      = some ⟨"2026-03-02T15:00:00+05:30", "Asha", "+911234500000", normalize_email "c@d.org", ""⟩) ∧
    ((cancel_appointment (save_booking_intent (save_booking_intent ⟨"+911234500000", "", none⟩
        "2026-03-01T10:00:00+05:30" "Asha" "+911234500000" "a@b.com" "").1
        "2026-03-02T15:00:00+05:30" "Asha" "+911234500000" "c@d.org" "").1 "changed my mind").1.booking_intent
      = none) ∧
    (∀ st' : AgentToolsState, st'.booking_intent = none →
      cancel_appointment st' "changed my mind" = (st', "Nothing to cancel.")) :=
  booking_overwrite_cancel_law ⟨"+911234500000", "", none⟩
    "2026-03-01T10:00:00+05:30" "Asha" "+911234500000" "a@b.com" ""
    "2026-03-02T15:00:00+05:30" "Asha" "+911234500000" "c@d.org" ""
    "changed my mind" "changed my mind" (by decide) (by decide) (by decide)

/-- C10: `save_booking_intent` validates and stores the normalised e-mail, not
the raw input: the stored `caller_email` is `normalize_email raw`, the
validity test is applied to `normalize_email raw`, and both returned strings
quote `normalize_email raw`. -/
theorem save_booking_intent_normalizes (st : AgentToolsState) (s n p raw no : String) :
    ((save_booking_intent st s n p raw no).1.booking_intent =
      if emailValid (normalize_email raw) then some ⟨s, n, p, normalize_email raw, no⟩
      else st.booking_intent) ∧
    ((save_booking_intent st s n p raw no).2 =
      if emailValid (normalize_email raw) then
        "Booking intent saved for " ++ n ++ " (" ++ normalize_email raw ++ ") at "
          ++ s ++ ". I'll confirm after the call."
      else
        "The email '" ++ normalize_email raw
          ++ "' doesn't look right. Please ask the caller to spell their email again, letter by letter.") := by
  rw [save_booking_intent_eq]
  by_cases h : emailValid (normalize_email raw) <;> simp [h]

/-- One not-yet-limited `is_rate_limited` call: when the phone is not special,
all recorded timestamps are inside the window and fewer than
`RATE_LIMIT_CALLS` of them exist, the call is admitted and `now` recorded. -/
theorem is_rate_limited_admits (st : RateState) (phone : String) (now : ℚ)
    (l : List ℚ) (hu : phone ≠ "unknown") (hd : phone ≠ "demo")
    (hl : st.call_timestamps phone = l)
    (hkeep : ∀ t ∈ l, now - t < RATE_LIMIT_WINDOW)
    (hlen : l.length < RATE_LIMIT_CALLS) :
    (is_rate_limited st phone now).1 = false ∧
      ((is_rate_limited st phone now).2).call_timestamps phone = l ++ [now] := by
  unfold is_rate_limited
  have hcond : (phone == "unknown" || phone == "demo") = false := by
    simp [hu, hd]
  rw [hcond, if_neg (by simp), hl,
    List.filter_eq_self.mpr (fun t ht => by simpa using hkeep t ht),
    if_neg (by omega)]
  exact ⟨rfl, by simp⟩

/-- One over-quota `is_rate_limited` call: when the phone is not special, all
recorded timestamps are inside the window and at least `RATE_LIMIT_CALLS` of
them exist, the call is reported limited. -/
theorem is_rate_limited_blocks (st : RateState) (phone : String) (now : ℚ)
    (l : List ℚ) (hu : phone ≠ "unknown") (hd : phone ≠ "demo")
    (hl : st.call_timestamps phone = l)
    (hkeep : ∀ t ∈ l, now - t < RATE_LIMIT_WINDOW)
    (hlen : RATE_LIMIT_CALLS ≤ l.length) :
    (is_rate_limited st phone now).1 = true := by
  unfold is_rate_limited
  have hcond : (phone == "unknown" || phone == "demo") = false := by
    simp [hu, hd]
  rw [hcond, if_neg (by simp), hl,
    List.filter_eq_self.mpr (fun t ht => by simpa using hkeep t ht),
    if_pos (by omega)]

/-- C7 counterexample: the phone `"demo"` is also exempt from rate limiting
(`src/utils.py` line 84), so its 6th check inside one window is admitted,
refuting the claim for the fixed phone number `"demo"`. -/
theorem rate_limit_demo_counterexample :
    runChecks freshRateState "demo" [0, 1, 2, 3, 4, 5] =
      [false, false, false, false, false, false] := by
  rfl

/-- C7 (amended): for a phone that is neither `"unknown"` nor `"demo"` with no
recorded calls, five session-start checks inside one sliding window are
admitted (session setup proceeds) and the sixth inside the same window is
limited, so the entrypoint returns before session setup; the phones
`"unknown"` and `"demo"` are never limited, whatever the state and however
many calls were made. -/
theorem rate_limit_six_checks (st : RateState) (phone : String)
    (t0 t1 t2 t3 t4 t5 : ℚ)
    (hu : phone ≠ "unknown") (hd : phone ≠ "demo")
    (hfresh : st.call_timestamps phone = [])
    (h01 : t0 ≤ t1) (h12 : t1 ≤ t2) (h23 : t2 ≤ t3) (h34 : t3 ≤ t4)
    (h45 : t4 ≤ t5) (hwin : t5 - t0 < RATE_LIMIT_WINDOW) :
    runChecks st phone [t0, t1, t2, t3, t4, t5] =
      [false, false, false, false, false, true] ∧
    List.map inbound_entrypoint_proceeds (runChecks st phone [t0, t1, t2, t3, t4, t5]) =
      [true, true, true, true, true, false] ∧
    ∀ (st' : RateState) (now : ℚ),
      (is_rate_limited st' "unknown" now).1 = false ∧
        (is_rate_limited st' "demo" now).1 = false := by
  have hkeep : ∀ (now : ℚ), t0 ≤ now → now ≤ t5 →
      ∀ t ∈ [t0, t1, t2, t3, t4], now - t < RATE_LIMIT_WINDOW := by
    intro now hlow hhigh t ht
    have hw : RATE_LIMIT_WINDOW = 3600 := rfl
    rw [hw]
    simp only [List.mem_cons, List.not_mem_nil, or_false] at ht
    have hwin' : t5 - t0 < 3600 := by rw [hw] at hwin; exact hwin
    rcases ht with rfl | rfl | rfl | rfl | rfl <;> linarith
  have h0 := is_rate_limited_admits st phone t0 [] hu hd hfresh
    (by intro t ht; simp at ht) (by simp [RATE_LIMIT_CALLS])
  have h1 := is_rate_limited_admits _ phone t1 [t0] hu hd h0.2
    (fun t ht => hkeep t1 h01 (by linarith) t
      (by simp only [List.mem_cons, List.not_mem_nil, or_false] at ht ⊢; tauto))
    (by simp [RATE_LIMIT_CALLS])
  have h2 := is_rate_limited_admits _ phone t2 [t0, t1] hu hd h1.2
    (fun t ht => hkeep t2 (by linarith) (by linarith) t
      (by simp only [List.mem_cons, List.not_mem_nil, or_false] at ht ⊢; tauto))
    (by simp [RATE_LIMIT_CALLS])
  have h3 := is_rate_limited_admits _ phone t3 [t0, t1, t2] hu hd h2.2
    (fun t ht => hkeep t3 (by linarith) (by linarith) t
      (by simp only [List.mem_cons, List.not_mem_nil, or_false] at ht ⊢; tauto))
    (by simp [RATE_LIMIT_CALLS])
  have h4 := is_rate_limited_admits _ phone t4 [t0, t1, t2, t3] hu hd h3.2
    (fun t ht => hkeep t4 (by linarith) (by linarith) t
      (by simp only [List.mem_cons, List.not_mem_nil, or_false] at ht ⊢; tauto))
    (by simp [RATE_LIMIT_CALLS])
  have h5 := is_rate_limited_blocks _ phone t5 [t0, t1, t2, t3, t4] hu hd h4.2
    (hkeep t5 (by linarith) (by linarith)) (by simp [RATE_LIMIT_CALLS])
  have main : runChecks st phone [t0, t1, t2, t3, t4, t5] =
      [false, false, false, false, false, true] := by
    simp only [runChecks, h0.1, h1.1, h2.1, h3.1, h4.1, h5]
  refine ⟨main, by rw [main]; rfl, fun st' now => ⟨?_, ?_⟩⟩ <;>
    simp [is_rate_limited]

/-- C7 witness: a concrete non-special phone, six calls at one-second
intervals from a fresh state. -/
theorem rate_limit_six_checks_witness :
    runChecks freshRateState "+911234500000" [0, 1, 2, 3, 4, 5] =
      [false, false, false, false, false, true] ∧
    List.map inbound_entrypoint_proceeds
        (runChecks freshRateState "+911234500000" [0, 1, 2, 3, 4, 5]) =
      [true, true, true, true, true, false] ∧
    ∀ (st' : RateState) (now : ℚ),
      (is_rate_limited st' "unknown" now).1 = false ∧
        (is_rate_limited st' "demo" now).1 = false :=
  rate_limit_six_checks freshRateState "+911234500000" 0 1 2 3 4 5
    (by decide) (by decide) rfl
    (by norm_num) (by norm_num) (by norm_num) (by norm_num) (by norm_num)
    (by norm_num [RATE_LIMIT_WINDOW])

/-- The guarded `save_call_log` call records the row whether or not the
persistence layer raises (`src/agents/base.py` lines 553–572). -/
theorem save_match_eq (r : Except Unit Unit) (rec : CallLogRecord) :
    (match r with | .ok _ => [rec] | .error _ => [rec]) = [rec] := by
  cases r <;> rfl

/-- C8: when the sentiment-classification call raises, the shutdown pipeline
still completes without raising, the sentiment defaults to `"unknown"`, and
`save_call_log` is still invoked exactly once, with a row whose sentiment is
`"unknown"`. -/
theorem shutdown_sentiment_failure_resilient
    (env : ShutdownEnv) (booking_intent : Option BookingIntent)
    (duration interrupt_count : Nat) (caller_phone tools_caller_name : String)
    (egress_id : Option String)
    (h : ∀ t, env.classify_sentiment t = .error ()) :
    ∃ msg record,
      unified_shutdown_hook env booking_intent duration interrupt_count
          caller_phone tools_caller_name egress_id = .ok (msg, "unknown", [record]) ∧
        record.sentiment = "unknown" := by
  simp only [unified_shutdown_hook, h, ite_self, save_match_eq]
  exact ⟨_, _, rfl, rfl⟩

/-- C8 witness: a concrete run in which the sentiment step raises. -/
theorem shutdown_sentiment_failure_resilient_witness :
    ∃ msg record,
      unified_shutdown_hook sentimentDownEnv none 42 1 "+911234500000" "Asha"
          (some "EG-1") = .ok (msg, "unknown", [record]) ∧
        record.sentiment = "unknown" :=
  shutdown_sentiment_failure_resilient sentimentDownEnv none 42 1
    "+911234500000" "Asha" (some "EG-1") (fun _ => rfl)

/-- Round-to-nearest-even never moves a value past its floor or ceiling. -/
theorem rne_bounds (q : ℚ) : ⌊q⌋ ≤ rne q ∧ rne q ≤ ⌊q⌋ + 1 := by
  simp only [rne]
  split_ifs <;> omega

/-- Round-to-nearest-even is monotone. -/
theorem rne_mono {q r : ℚ} (h : q ≤ r) : rne q ≤ rne r := by
  have hf : ⌊q⌋ ≤ ⌊r⌋ := Int.floor_le_floor h
  rcases eq_or_lt_of_le hf with hEq | hLt
  · have hfr : q - ⌊q⌋ ≤ r - ⌊r⌋ := by
      rw [← hEq]
      linarith
    simp only [rne]
    rw [← hEq]
    split_ifs <;> first | omega | linarith
  · have h1 := (rne_bounds q).2
    have h2 := (rne_bounds r).1
    omega

/-- C9: the cost estimate of the shutdown pipeline is monotone in both the
call duration and the transcript character count. -/
theorem estimate_cost_monotone (d1 d2 c1 c2 : Nat) (hd : d1 ≤ d2) (hc : c1 ≤ c2) :
    _estimate_cost d1 c1 ≤ _estimate_cost d2 c2 := by
  unfold _estimate_cost py_round5
  have hd' : (d1 : ℚ) ≤ d2 := by exact_mod_cast hd
  have hc' : (c1 : ℚ) ≤ c2 := by exact_mod_cast hc
  have hinner :
      ((d1 : ℚ) / 60) * 0.002 + ((d1 : ℚ) / 60) * 0.006
          + ((c1 : ℚ) / 1000) * 0.003 + ((c1 : ℚ) / 4000) * 0.0001 ≤
        ((d2 : ℚ) / 60) * 0.002 + ((d2 : ℚ) / 60) * 0.006
          + ((c2 : ℚ) / 1000) * 0.003 + ((c2 : ℚ) / 4000) * 0.0001 := by
    linarith
  have hscaled := mul_le_mul_of_nonneg_right hinner (by norm_num : (0 : ℚ) ≤ 100000)
  gcongr
  exact_mod_cast rne_mono hscaled

/-- C9 witness: a longer call with a longer transcript costs at least as much
as a shorter one. -/
theorem estimate_cost_monotone_witness :
    0 ≤ 60 ∧ 0 ≤ 1000 ∧ _estimate_cost 0 0 ≤ _estimate_cost 60 1000 :=
  ⟨by decide, by decide, estimate_cost_monotone 0 60 0 1000 (by decide) (by decide)⟩

end VoiceAgent
